import Mathlib

/-!
Shallow embedding of the hospital CRUD API (Express routes over a
PostgreSQL store) and proofs about its validation and handler logic.

The embedding covers:
* the two pure validators `isValidISODate` and `validaCPF`
  (src/src/routes/paciente.js lines 5-48, duplicated in medico.js);
* the canonical request handlers cited by the claims
  (paciente list/get/create/update, medico create/update,
  consulta get/create, departamento list, the transaction demo route);
* a relational store model with the constraints of sql/init.sql
  (unique CPF / CRM / department name / consulta triple, foreign keys).

Host-runtime primitives used by the routes are modelled explicitly:
`Number(string)` (decimal string literals; hex, `Infinity` and
surrounding whitespace are not exercised by any route input and are
omitted), and ECMAScript `Date` parsing of `YYYY-MM-DD` strings as run
by Node, which yields an invalid time value exactly when the components
do not form a real Gregorian calendar date.  Date getters are taken in
UTC (the container deployment runs with TZ=UTC, under which
`getFullYear`/`getMonth`/`getDate` return the parsed components).
-/

namespace Hospital

/-! ## Modelled JS/PG runtime primitives -/

/-- Numeric value of a decimal digit character. -/
def digitVal (c : Char) : Nat := c.toNat - 48

/-- Value of a list of decimal digit characters, most significant first. -/
def digitsVal (cs : List Char) : Nat :=
  cs.foldl (fun a c => a * 10 + digitVal c) 0

/-- Ten to a natural power, as a rational (computed in `Nat` so that
concrete evaluation is cheap). -/
def pow10 (n : Nat) : Rat := ((10 ^ n : Nat) : Rat)

/-- Apply a base-ten exponent to a rational. -/
def applyExp (x : Rat) (e : Int) : Rat :=
  if 0 ≤ e then x * pow10 e.toNat else x / pow10 (-e).toNat

/-- Split an optional leading sign, returning whether it was negative. -/
def splitSign (cs : List Char) : Bool × List Char :=
  match cs with
  | '-' :: rest => (true, rest)
  | '+' :: rest => (false, rest)
  | _ => (false, cs)

/-- Split an optional leading sign, returning the sign as an integer factor. -/
def splitSignInt (cs : List Char) : Int × List Char :=
  match cs with
  | '-' :: rest => (-1, rest)
  | '+' :: rest => (1, rest)
  | _ => (1, cs)

/-- Rational value of integer digits, fraction digits and a base-ten exponent. -/
def ratOfParts (ip fp : List Char) (e : Int) : Rat :=
  applyExp ((digitsVal ip : Rat) + (digitsVal fp : Rat) / pow10 fp.length) e

/-- A JS number as produced by `Number(string)`: `NaN`, a signed
infinity, or a finite value. -/
inductive JsNum where
  | nan
  | inf (neg : Bool)
  | fin (q : Rat)
deriving DecidableEq, Repr

/-- The smallest magnitude that rounds to `Infinity` in an IEEE-754
double, `2 ^ 1024 - 2 ^ 970` (written out so that concrete evaluation
needs no power computation; `jsOverflowBound_eq` below checks the
value). -/
def jsOverflowBound : Rat :=
  179769313486231580793728971405303415079934132710037826936173778980444968292764750946649017977587207096330286416692887910946555547851940402630657488671505820681908902000708383676273854845817711531764475730270069855571366959622842914819860834936475292719074168444365510704342711559699508093042880177904174497792

/-- Finish a parsed non-negative magnitude: overflow to the signed
infinity at the IEEE threshold, otherwise the signed finite value. -/
def jsFinish (neg : Bool) (v : Rat) : JsNum :=
  if jsOverflowBound ≤ v then .inf neg else .fin (if neg then -v else v)

/-- Whether a character is a digit of base `b ≤ 16`. -/
def isRadixDigit (b : Nat) (c : Char) : Bool :=
  (c.isDigit && digitVal c < b) ||
  ('a' ≤ c && c.toNat - 87 < b) || ('A' ≤ c && c ≤ 'F' && c.toNat - 55 < b)

/-- Numeric value of a base-`b` digit character. -/
def radixDigitVal (c : Char) : Nat :=
  if c.isDigit then digitVal c
  else if 'a' ≤ c then c.toNat - 87
  else c.toNat - 55

/-- Value of a list of base-`b` digit characters. -/
def radixVal (b : Nat) (cs : List Char) : Nat :=
  cs.foldl (fun a c => a * b + radixDigitVal c) 0

/-- A JS non-decimal integer literal after its `0x`/`0o`/`0b` prefix:
at least one digit of the base, nothing else, no sign. -/
def jsRadix (b : Nat) (ds : List Char) : JsNum :=
  if !ds.isEmpty && ds.all (isRadixDigit b) then jsFinish false (radixVal b ds)
  else .nan

/-- Exponent part of a JS decimal literal: optional sign then digits,
consuming the whole remainder. -/
def jsExpPart (neg : Bool) (ip fp : List Char) (rest : List Char) : JsNum :=
  let (es, r3) := splitSignInt rest
  let ed := r3.takeWhile Char.isDigit
  let r4 := r3.dropWhile Char.isDigit
  if ed.isEmpty then .nan
  else if r4.isEmpty then jsFinish neg (ratOfParts ip fp (es * (digitsVal ed : Int)))
  else .nan

/-- Models ECMAScript `Number(string)` on the string literals the routes
can receive: the empty string is `0`; `0x`/`0o`/`0b` integer literals
(unsigned, as in JS); an optional sign followed by `Infinity` or by
digits with optional fraction and optional exponent; anything else is
`NaN`.  Magnitudes at or above the IEEE threshold overflow to the
signed infinity.  Finite values are kept as exact rationals: rounding
to the nearest double (observable only on literals carrying more
precision than a double holds) and underflow to zero are not modelled;
surrounding whitespace is not modelled. -/
def jsNumber (s : String) : JsNum :=
  let cs := s.data
  if cs.isEmpty then .fin 0 else
  match cs with
  | '0' :: 'x' :: ds => jsRadix 16 ds
  | '0' :: 'X' :: ds => jsRadix 16 ds
  | '0' :: 'o' :: ds => jsRadix 8 ds
  | '0' :: 'O' :: ds => jsRadix 8 ds
  | '0' :: 'b' :: ds => jsRadix 2 ds
  | '0' :: 'B' :: ds => jsRadix 2 ds
  | _ =>
    let (neg, cs1) := splitSign cs
    if cs1 = "Infinity".data then .inf neg else
    let ip := cs1.takeWhile Char.isDigit
    let r1 := cs1.dropWhile Char.isDigit
    let (fp, r2) :=
      match r1 with
      | '.' :: rest => (rest.takeWhile Char.isDigit, rest.dropWhile Char.isDigit)
      | _ => ([], r1)
    if ip.isEmpty && fp.isEmpty then .nan else
    match r2 with
    | [] => jsFinish neg (ratOfParts ip fp 0)
    | 'e' :: rest => jsExpPart neg ip fp rest
    | 'E' :: rest => jsExpPart neg ip fp rest
    | _ => .nan

lemma jsOverflowBound_eq : jsOverflowBound = 2 ^ 1024 - 2 ^ 970 := by
  norm_num [jsOverflowBound]

/-- `Number.isNaN(x)`. -/
def jsIsNaN : JsNum → Bool
  | .nan => true
  | _ => false

/-- The JS comparison `x <= 0` (false on `NaN`, which the routes have
already excluded when they evaluate it). -/
def jsLeZero : JsNum → Bool
  | .nan => false
  | .inf neg => neg
  | .fin q => decide (q ≤ 0)

/-! ## Validators (src/src/routes/paciente.js lines 5-48) -/

/-- Leap-year rule of the Gregorian calendar, as applied by JS `Date`. -/
def isLeapYear (y : Nat) : Bool :=
  (y % 4 == 0 && y % 100 != 0) || y % 400 == 0

/-- Number of days of month `m` (1-based) in year `y`. -/
def daysInMonth (y m : Nat) : Nat :=
  if m == 2 then (if isLeapYear y then 29 else 28)
  else if m == 4 || m == 6 || m == 9 || m == 11 then 30
  else 31

/-- Models `new Date("YYYY-MM-DD")` in Node followed by the UTC getters:
parsing succeeds (a valid time value) exactly when the components form a
real Gregorian calendar date, and then the getters return the components
unchanged; otherwise the time value is `NaN`. -/
def jsDateISO (y m d : Nat) : Option (Nat × Nat × Nat) :=
  if 1 ≤ m ∧ m ≤ 12 ∧ 1 ≤ d ∧ d ≤ daysInMonth y m then some (y, m, d) else none

/-- The regex `^\d{4}-\d{2}-\d{2}$` of `isValidISODate`. -/
def isoShape (cs : List Char) : Bool :=
  match cs with
  | [c1, c2, c3, c4, s1, c5, c6, s2, c7, c8] =>
    c1.isDigit && c2.isDigit && c3.isDigit && c4.isDigit && s1 == '-' &&
    c5.isDigit && c6.isDigit && s2 == '-' && c7.isDigit && c8.isDigit
  | _ => false

/-- Year component of a `YYYY-MM-DD` string (`split("-").map(Number)`). -/
def isoYear (s : String) : Nat := digitsVal (s.data.take 4)

/-- Month component of a `YYYY-MM-DD` string. -/
def isoMonth (s : String) : Nat := digitsVal ((s.data.drop 5).take 2)

/-- Day component of a `YYYY-MM-DD` string. -/
def isoDay (s : String) : Nat := digitsVal ((s.data.drop 8).take 2)

/-- `isValidISODate` of src/src/routes/paciente.js lines 5-17 (the identical
copy sits in medico.js lines 111-123): regex test, split into components,
construct a `Date`, reject `NaN`, then compare the getters with the
components. -/
def isValidISODate (s : String) : Bool :=
  if isoShape s.data then
    match jsDateISO (isoYear s) (isoMonth s) (isoDay s) with
    | none => false
    | some (py, pm, pd) => py == isoYear s && pm == isoMonth s && pd == isoDay s
  else false

/-- The digit list of a CPF string after `replace(/[^\d]+/g, "")` and
single-character `parseInt`s. -/
def cpfDigits (s : String) : List Nat :=
  (s.data.filter Char.isDigit).map digitVal

/-- The regex `^(\d)\1{10}$` applied to the stripped CPF: all characters
equal to the first.  (On the empty string the regex does not match.) -/
def cpfAllSame : List Nat → Bool
  | [] => false
  | d :: rest => rest.all (fun x => x == d)

/-- The loop `for i 1..n: soma += digit[i-1] * (n+2-i)` of `validaCPF`,
zero-based: weight `n + 1 - i` for position `i`. -/
def cpfSum (ds : List Nat) (n : Nat) : Nat :=
  (List.range n).foldl (fun soma i => soma + ds.getD i 0 * (n + 1 - i)) 0

/-- `resto = (soma * 10) % 11; if (resto === 10 || resto === 11) resto = 0`. -/
def cpfResto (soma : Nat) : Nat :=
  if soma * 10 % 11 = 10 ∨ soma * 10 % 11 = 11 then 0 else soma * 10 % 11

/-- Body of `validaCPF` after stripping, on the digit list. -/
def cpfCheck (cpf : List Nat) : Bool :=
  if cpf.length ≠ 11 then false
  else if cpfAllSame cpf then false
  else if cpfResto (cpfSum cpf 9) ≠ cpf.getD 9 0 then false
  else if cpfResto (cpfSum cpf 10) ≠ cpf.getD 10 0 then false
  else true

/-- `validaCPF` of src/src/routes/paciente.js lines 19-48.  The JS
`typeof cpf !== "string"` guard is subsumed by the `String` domain. -/
def validaCPF (s : String) : Bool := cpfCheck (cpfDigits s)

/-! ## Spec-side definitions (formalising the claims' words, to be
compared against the source embedding above) -/

/-- Spec-side checksum digit, following the claim's words for C1: the
weighted sum with weights `n+1 .. 2` over positions `1 .. n`, taken mod
11, the remainder subtracted from 11, and 10 or 11 mapped to 0. -/
def specResto (soma : Nat) : Nat :=
  if 11 - soma % 11 = 10 ∨ 11 - soma % 11 = 11 then 0 else 11 - soma % 11

/-- Spec-side checksum digit over the digit list. -/
def specCheckDigit (ds : List Nat) (n : Nat) : Nat :=
  specResto (((List.range n).map (fun i => ds.getD i 0 * (n + 1 - i))).sum)

/-- Spec-side national-ID validity, following the claim's words for C1:
exactly 11 digits after stripping, not all the same digit, and the two
checksum digits equal to the 10th and 11th digits. -/
def IsValidNationalIdSpec (s : String) : Prop :=
  (cpfDigits s).length = 11 ∧
  ¬ (∀ x ∈ cpfDigits s, x = (cpfDigits s).headD 0) ∧
  specCheckDigit (cpfDigits s) 9 = (cpfDigits s).getD 9 0 ∧
  specCheckDigit (cpfDigits s) 10 = (cpfDigits s).getD 10 0

/-- Spec-side month-length table for C2. -/
def monthLengths (y : Nat) : List Nat :=
  [31, if isLeapYear y then 29 else 28, 31, 30, 31, 30, 31, 31, 30, 31, 30, 31]

/-- Spec-side calendar-date validity, following the claim's words for C2:
the components denote an actual Gregorian calendar date. -/
def IsActualCalendarDate (y m d : Nat) : Prop :=
  1 ≤ m ∧ m ≤ 12 ∧ 1 ≤ d ∧ d ≤ (monthLengths y).getD (m - 1) 0

/-! ## Equivalence lemmas for the validators -/

lemma cpfResto_eq_specResto (n : Nat) : cpfResto n = specResto n := by
  unfold cpfResto specResto
  split_ifs <;> omega

lemma foldl_add_map (f : Nat → Nat) (l : List Nat) (a : Nat) :
    l.foldl (fun acc i => acc + f i) a = a + (l.map f).sum := by
  induction l generalizing a with
  | nil => simp
  | cons x xs ih => simp [ih]; omega

lemma cpfSum_eq_mapSum (ds : List Nat) (n : Nat) :
    cpfSum ds n = ((List.range n).map (fun i => ds.getD i 0 * (n + 1 - i))).sum := by
  unfold cpfSum
  rw [foldl_add_map]
  simp

lemma cpfResto_cpfSum (ds : List Nat) (n : Nat) :
    cpfResto (cpfSum ds n) = specCheckDigit ds n := by
  rw [cpfSum_eq_mapSum, cpfResto_eq_specResto, specCheckDigit]

lemma cpfAllSame_iff (d : Nat) (rest : List Nat) :
    cpfAllSame (d :: rest) = true ↔ ∀ x ∈ d :: rest, x = (d :: rest).headD 0 := by
  simp [cpfAllSame, List.all_eq_true]

lemma cpfCheck_iff (ds : List Nat) :
    cpfCheck ds = true ↔
      (ds.length = 11 ∧
       ¬ (∀ x ∈ ds, x = ds.headD 0) ∧
       specCheckDigit ds 9 = ds.getD 9 0 ∧
       specCheckDigit ds 10 = ds.getD 10 0) := by
  unfold cpfCheck
  by_cases hlen : ds.length = 11
  · cases ds with
    | nil => simp at hlen
    | cons d rest =>
      rw [if_neg (by simp [hlen])]
      by_cases hsame : cpfAllSame (d :: rest) = true
      · rw [if_pos hsame]
        exact iff_of_false (by simp)
          (fun h => h.2.1 ((cpfAllSame_iff d rest).mp hsame))
      · rw [if_neg hsame]
        rw [cpfResto_cpfSum, cpfResto_cpfSum]
        have hns : ¬ (∀ x ∈ d :: rest, x = (d :: rest).headD 0) :=
          fun h => hsame ((cpfAllSame_iff d rest).mpr h)
        split_ifs with h9 h10
        · exact iff_of_false (by simp) (fun h => h9 h.2.2.1)
        · exact iff_of_false (by simp) (fun h => h10 h.2.2.2)
        · exact iff_of_true rfl ⟨hlen, hns, not_ne_iff.mp h9, not_ne_iff.mp h10⟩
  · rw [if_pos hlen]
    exact iff_of_false (by simp) (fun h => hlen h.1)

/-! ## C1 -/

/-- C1: `validaCPF` accepts a string exactly when, after stripping
non-digits, it has 11 digits that are not all equal and whose two
checksum digits (weighted-sum-mod-11, weights 10..2 then 11..2,
remainder 10 or 11 mapped to 0) match its 10th and 11th digits; in
particular `"11111111111"` is rejected, a wrong final checksum digit is
rejected, and a correct checksum sequence is accepted. -/
theorem c1_national_id_validator :
    (∀ s : String, validaCPF s = true ↔ IsValidNationalIdSpec s) ∧
    validaCPF "11111111111" = false ∧
    validaCPF "11144477736" = false ∧
    validaCPF "11144477735" = true := by
  refine ⟨fun s => ?_, by decide, by decide, by decide⟩
  unfold validaCPF IsValidNationalIdSpec
  exact cpfCheck_iff (cpfDigits s)

/-! ## C2 -/

lemma daysInMonth_eq_monthLengths (y m : Nat) (h1 : 1 ≤ m) (h2 : m ≤ 12) :
    daysInMonth y m = (monthLengths y).getD (m - 1) 0 := by
  interval_cases m <;> rfl

lemma isValidISODate_iff (s : String) :
    isValidISODate s = true ↔
      (isoShape s.data = true ∧
       IsActualCalendarDate (isoYear s) (isoMonth s) (isoDay s)) := by
  unfold isValidISODate
  by_cases h : isoShape s.data
  · rw [if_pos h]
    unfold jsDateISO
    by_cases hv : 1 ≤ isoMonth s ∧ isoMonth s ≤ 12 ∧ 1 ≤ isoDay s ∧
        isoDay s ≤ daysInMonth (isoYear s) (isoMonth s)
    · rw [if_pos hv]
      refine iff_of_true (by simp) ⟨h, hv.1, hv.2.1, hv.2.2.1, ?_⟩
      rw [← daysInMonth_eq_monthLengths (isoYear s) (isoMonth s) hv.1 hv.2.1]
      exact hv.2.2.2
    · rw [if_neg hv]
      refine iff_of_false (by simp) ?_
      rintro ⟨-, hm1, hm2, hd1, hd2⟩
      refine hv ⟨hm1, hm2, hd1, ?_⟩
      rw [daysInMonth_eq_monthLengths (isoYear s) (isoMonth s) hm1 hm2]
      exact hd2
  · rw [if_neg h]
    exact iff_of_false (by simp) (fun hc => h hc.1)

/-- C2: `isValidISODate` accepts a string exactly when it has the literal
`YYYY-MM-DD` shape and its components denote an actual Gregorian
calendar date; the listed concrete examples behave as claimed.  The
embedding is a total function (the source has no side effects and
throws no exceptions); `Date` getters are modelled in UTC. -/
theorem c2_calendar_date_validator :
    (∀ s : String, isValidISODate s = true ↔
      (isoShape s.data = true ∧
       IsActualCalendarDate (isoYear s) (isoMonth s) (isoDay s))) ∧
    isValidISODate "2025-02-30" = false ∧
    isValidISODate "2024-02-29" = true ∧
    isValidISODate "2023-02-29" = false ∧
    isValidISODate "2025-13-01" = false ∧
    isValidISODate "2025-01-01" = true :=
  ⟨isValidISODate_iff, by decide, by decide, by decide, by decide, by decide⟩

/-! ## Data model (sql/init.sql) -/

/-- A row of table `paciente`. -/
structure PacienteRow where
  id_paciente : Nat
  nome : String
  cpf : String
  data_nascimento : String
  endereco : String
deriving DecidableEq, Repr

/-- A row of table `medico`.  `id_departamento` is nullable and holds the
numeric value supplied by the client (an integer-valued rational after
the handlers' checks). -/
structure MedicoRow where
  id_medico : Nat
  nome : String
  crm : String
  especialidade : String
  data_contratacao : String
  id_departamento : Option Rat
deriving DecidableEq, Repr

/-- A row of table `departamento`. -/
structure DepartamentoRow where
  id_departamento : Nat
  nome : String
  localizacao : Option String
deriving DecidableEq, Repr

/-- A row of table `consulta`.  `id_paciente`/`id_medico` hold the numeric
values supplied by the client; `data_consulta` is kept as the supplied
string, assumed in canonical `YYYY-MM-DD` form (DATE normalisation of
equivalent spellings is not modelled). -/
structure ConsultaRow where
  id_consulta : Nat
  id_paciente : Rat
  id_medico : Rat
  data_consulta : String
  duracao_min : Option Rat
  diagnostico : Option String
  observacoes : Option String
deriving DecidableEq, Repr

/-- A row of table `usuarios` (transaction-demo route). -/
structure UsuarioRow where
  id : Nat
  nome : String
  senha : String
deriving DecidableEq, Repr

/-- The relational store: one list per table plus the next generated
identifier per sequence-backed table. -/
structure DB where
  pacientes : List PacienteRow
  medicos : List MedicoRow
  departamentos : List DepartamentoRow
  consultas : List ConsultaRow
  usuarios : List UsuarioRow
  nextPaciente : Nat
  nextMedico : Nat
  nextConsulta : Nat
deriving DecidableEq, Repr

/-! ## Requests and responses -/

/-- Body of a paciente create/update request.  `none` models an absent
(or `undefined`) JSON field. -/
structure PacienteReq where
  nome : Option String
  cpf : Option String
  data_nascimento : Option String
  endereco : Option String
deriving DecidableEq, Repr

/-- Body of a medico create/update request. -/
structure MedicoReq where
  nome : Option String
  crm : Option String
  especialidade : Option String
  data_contratacao : Option String
  id_departamento : Option Rat
deriving DecidableEq, Repr

/-- Body of a consulta create request. -/
structure ConsultaReq where
  id_paciente : Option Rat
  id_medico : Option Rat
  data_consulta : Option String
  duracao_min : Option Rat
  diagnostico : Option String
  observacoes : Option String
deriving DecidableEq, Repr

/-- JS truthiness of an optional string field (`!x` is true for a missing
field and for the empty string). -/
def truthyS : Option String → Bool
  | none => false
  | some s => !s.isEmpty

/-- JS truthiness of an optional numeric field (`!x` is true for a missing
field and for `0`). -/
def truthyN : Option Rat → Bool
  | none => false
  | some q => q != 0

/-- JSON payload of a route response: an error/notice string, a single
row, or an array of rows. -/
inductive Payload (ρ : Type) where
  | msg (s : String)
  | row (r : ρ)
  | rows (l : List ρ)
deriving DecidableEq, Repr

/-- An HTTP response: status code and JSON payload. -/
structure HttpResponse (ρ : Type) where
  status : Nat
  body : Payload ρ
deriving DecidableEq, Repr

/-! ## SQL statement texts (constants, exactly as in the source) -/

def pacienteListSQL : String := "SELECT * FROM PACIENTE ORDER BY id_paciente"
def pacienteGetSQL : String := "SELECT * FROM PACIENTE WHERE id_paciente = $1"
def pacienteCpfSQL : String := "SELECT 1 FROM PACIENTE WHERE cpf = $1"
def pacienteInsertSQL : String :=
  "INSERT INTO PACIENTE(nome, cpf, data_nascimento, endereco) VALUES($1, $2, $3, $4) RETURNING *"
def pacienteCpfExclSQL : String :=
  "SELECT * FROM PACIENTE WHERE cpf = $1 AND id_paciente <> $2"
def pacienteUpdateSQL : String :=
  "UPDATE PACIENTE SET nome = $1, cpf = $2, data_nascimento = $3, endereco = $4 WHERE id_paciente = $5 RETURNING *"
def medicoGetSQL : String := "SELECT * FROM MEDICO WHERE id_medico = $1"
def deptExistsSQL : String := "SELECT 1 FROM departamento WHERE id_departamento = $1"
def deptExistsUpdSQL : String := "SELECT 1 FROM DEPARTAMENTO WHERE id_departamento = $1"
def medicoCrmSQL : String := "SELECT 1 FROM medico WHERE crm = $1"
def medicoCrmExclSQL : String :=
  "SELECT * FROM MEDICO WHERE crm = $1 AND id_medico <> $2"
def medicoInsertSQL : String :=
  "INSERT INTO medico(nome, crm, especialidade, data_contratacao, id_departamento) VALUES($1, $2, $3, $4, $5) RETURNING *"
def medicoUpdateSQL : String :=
  "UPDATE MEDICO SET nome = $1, crm = $2, especialidade = $3, data_contratacao = $4, id_departamento = $5 WHERE id_medico = $6 RETURNING *"
def consultaCountSQL : String := "SELECT count(*) from CONSULTA WHERE id_consulta = $1"
def consultaGetSQL : String := "SELECT * from consulta WHERE id_consulta = $1"
def consultaInsertSQL : String :=
  "INSERT INTO CONSULTA(id_paciente, id_medico, data_consulta, duracao_min, diagnostico, observacoes) VALUES($1, $2, $3, $4, $5, $6) returning *"
def departamentoListSQL : String :=
  "SELECT * FROM departamento ORDER BY id_departamento"
def rotaUpd1SQL : String :=
  "UPDATE usuarios SET nome = nome || \x27_teste\x27 WHERE id = $1"
def rotaUpd2SQL : String :=
  "UPDATE usuarios SET senha = senha || \x27_teste\x27 WHERE id = $1"
def rotaSelSQL : String := "SELECT * FROM usuarios WHERE id = $1"

/-- Every statement text a modelled handler can send to the store. -/
def sqlConstants : List String :=
  [pacienteListSQL, pacienteGetSQL, pacienteCpfSQL, pacienteInsertSQL,
   pacienteCpfExclSQL, pacienteUpdateSQL, medicoGetSQL, deptExistsSQL,
   deptExistsUpdSQL, medicoCrmSQL, medicoCrmExclSQL, medicoInsertSQL,
   medicoUpdateSQL, consultaCountSQL, consultaGetSQL, consultaInsertSQL,
   departamentoListSQL, rotaUpd1SQL, rotaUpd2SQL, rotaSelSQL]

/-! ## Store helpers -/

/-- `ORDER BY` on a numeric key: insertion into a sorted list. -/
def insertByKey {α : Type} (key : α → Nat) (r : α) : List α → List α
  | [] => [r]
  | x :: xs =>
    if key r ≤ key x then r :: x :: xs else x :: insertByKey key r xs

/-- `ORDER BY` on a numeric key: insertion sort (stable, total). -/
def sortByKey {α : Type} (key : α → Nat) : List α → List α
  | [] => []
  | x :: xs => insertByKey key x (sortByKey key xs)

/-- Store error conditions a modelled insert can raise, with the
PostgreSQL message text surfaced as `error.message`. -/
inductive SqlError where
  | uniqueViolation (c : String)
  | notNullViolation (col : String)
  | fkViolation (c : String)
  | invalidInt4Text
  | int4OutOfRange
deriving DecidableEq, Repr

/-- The `error.message` text of a store error.  (PostgreSQL appends the
offending literal to the `22P02` message; that suffix is input-dependent
and not modelled — no theorem pins a response body built from it.) -/
def SqlError.message : SqlError → String
  | .uniqueViolation c =>
      "duplicate key value violates unique constraint \"" ++ c ++ "\""
  | .notNullViolation col =>
      "null value in column \"" ++ col ++ "\" violates not-null constraint"
  | .fkViolation c =>
      "insert or update on table \"consulta\" violates foreign key constraint \"" ++ c ++ "\""
  | .invalidInt4Text => "invalid input syntax for type integer"
  | .int4OutOfRange => "value out of range for type integer"

/-- Binding a JS number as an `int4` parameter: node-postgres sends the
decimal rendering of the value and PostgreSQL's `int4in` accepts an
optional sign followed by digits within the 32-bit range.  A fractional
value, `Infinity` or `NaN` renders non-integrally and raises `22P02`
(invalid text representation); an integral value outside the range
raises `22003`.  (Integral magnitudes at or above `1e21` render in
exponent notation and actually raise `22P02` instead of `22003`; both
are caught identically by the handlers, so only the error's existence
matters.) -/
def pgBindInt4 : JsNum → Except SqlError Int
  | .nan => .error .invalidInt4Text
  | .inf _ => .error .invalidInt4Text
  | .fin q =>
    if q.den = 1 then
      if q.num < -2147483648 ∨ 2147483647 < q.num then .error .int4OutOfRange
      else .ok q.num
    else .error .invalidInt4Text

/-- Store-level insert into `consulta`, enforcing the constraints of
sql/init.sql: NOT NULL on the three required columns, the unique
`(id_paciente, id_medico, data_consulta)` triple, then the two foreign
keys (PostgreSQL raises the unique-index violation before the FK
triggers fire). -/
def consultaInsert (db : DB) (r : ConsultaReq) : Except SqlError ConsultaRow :=
  match r.id_paciente, r.id_medico, r.data_consulta with
  | none, _, _ => .error (.notNullViolation "id_paciente")
  | _, none, _ => .error (.notNullViolation "id_medico")
  | _, _, none => .error (.notNullViolation "data_consulta")
  | some p, some m, some dt =>
    if db.consultas.any
        (fun c => c.id_paciente == p && c.id_medico == m && c.data_consulta == dt) then
      .error (.uniqueViolation "uq_consulta_unica")
    else if !(db.pacientes.any (fun x => ((x.id_paciente : Rat) == p))) then
      .error (.fkViolation "fk_consulta_paciente")
    else if !(db.medicos.any (fun x => ((x.id_medico : Rat) == m))) then
      .error (.fkViolation "fk_consulta_medico")
    else
      .ok ⟨db.nextConsulta, p, m, dt, r.duracao_min, r.diagnostico, r.observacoes⟩

/-! ## Handlers

Each handler returns the HTTP response together with the list of SQL
statement texts it sent to the store on that control path. -/

/-- `GET /paciente` (src/src/routes/paciente.js lines 99-112). -/
def pacienteList (db : DB) : HttpResponse PacienteRow × List String :=
  let rows := sortByKey PacienteRow.id_paciente db.pacientes
  if rows.length == 0 then
    (⟨200, .msg "Nenhum paciente cadastrado."⟩, [pacienteListSQL])
  else
    (⟨200, .rows rows⟩, [pacienteListSQL])

/-- `GET /paciente/:id` (src/src/routes/paciente.js lines 191-210):
`NaN`/non-positive guard, then the SELECT binding the raw numeric value
as the `int4` parameter — a value the store cannot convert (fractional,
infinite, or out of 32-bit range) raises there, and the `catch` answers
500 with the route's fixed message. -/
def pacienteGetById (db : DB) (idStr : String) :
    HttpResponse PacienteRow × List String :=
  let id := jsNumber idStr
  if jsIsNaN id || jsLeZero id then
    (⟨400, .msg "Informe um id_paciente válido."⟩, [])
  else
    match pgBindInt4 id with
    | .error _ =>
      (⟨500, .msg "Erro interno ao buscar paciente."⟩, [pacienteGetSQL])
    | .ok k =>
      match db.pacientes.filter (fun p => ((p.id_paciente : Int) == k)) with
      | [] => (⟨404, .msg "Paciente não cadastrado no banco."⟩, [pacienteGetSQL])
      | r :: _ => (⟨200, .row r⟩, [pacienteGetSQL])

/-- `POST /paciente` (src/src/routes/paciente.js lines 298-331). -/
def pacienteCreate (db : DB) (r : PacienteReq) :
    HttpResponse PacienteRow × List String :=
  if !(truthyS r.nome && truthyS r.cpf && truthyS r.data_nascimento &&
       truthyS r.endereco) then
    (⟨400, .msg "Campos obrigatórios ausentes. Envie nome, cpf, data_nascimento e endereco."⟩, [])
  else if !(validaCPF (r.cpf.getD "")) then
    (⟨400, .msg "CPF inválido."⟩, [])
  else if !(isValidISODate (r.data_nascimento.getD "")) then
    (⟨400, .msg "Data de nascimento inválida."⟩, [])
  else if db.pacientes.any (fun p => p.cpf == r.cpf.getD "") then
    (⟨400, .msg "CPF já cadastrado para outro paciente."⟩, [pacienteCpfSQL])
  else
    (⟨201, .row ⟨db.nextPaciente, r.nome.getD "", r.cpf.getD "",
        r.data_nascimento.getD "", r.endereco.getD ""⟩⟩,
     [pacienteCpfSQL, pacienteInsertSQL])

/-- `PUT /paciente/:id` (src/src/routes/paciente.js lines 543-581).
An infinite id passing the guard raises at the existence SELECT and is
answered 500 by the `catch`; the store phase for finite ids is the
exact lookup (fractional finite ids, rejected by the store in reality,
lie outside every hypothesis stated about this handler). -/
def pacienteUpdate (db : DB) (idStr : String) (r : PacienteReq) :
    HttpResponse PacienteRow × List String :=
  let idn := jsNumber idStr
  if jsIsNaN idn || jsLeZero idn then
    (⟨400, .msg "Informe um id_paciente válido."⟩, [])
  else if !(truthyS r.nome && truthyS r.cpf && truthyS r.data_nascimento &&
            truthyS r.endereco) then
    (⟨400, .msg "Campos obrigatórios ausentes. Envie nome, cpf, data_nascimento e endereco."⟩, [])
  else if !(validaCPF (r.cpf.getD "")) then
    (⟨400, .msg "CPF inválido."⟩, [])
  else if !(isValidISODate (r.data_nascimento.getD "")) then
    (⟨400, .msg "Data de nascimento inválida."⟩, [])
  else
    match idn with
    | .fin q =>
      match db.pacientes.filter (fun p => ((p.id_paciente : Rat) == q)) with
      | [] => (⟨404, .msg "Paciente não cadastrado no banco."⟩, [pacienteGetSQL])
      | p0 :: _ =>
        if db.pacientes.any
            (fun p => p.cpf == r.cpf.getD "" && !((p.id_paciente : Rat) == q)) then
          (⟨400, .msg "CPF já cadastrado para outro paciente."⟩,
           [pacienteGetSQL, pacienteCpfExclSQL])
        else
          (⟨200, .row ⟨p0.id_paciente, r.nome.getD "", r.cpf.getD "",
              r.data_nascimento.getD "", r.endereco.getD ""⟩⟩,
           [pacienteGetSQL, pacienteCpfExclSQL, pacienteUpdateSQL])
    | _ => (⟨500, .msg "Erro ao atualizar paciente no banco."⟩, [pacienteGetSQL])

/-- `POST /medico` (src/src/routes/medico.js lines 356-389). -/
def medicoCreate (db : DB) (r : MedicoReq) :
    HttpResponse MedicoRow × List String :=
  if !(truthyS r.nome && truthyS r.crm && truthyS r.especialidade &&
       truthyS r.data_contratacao && truthyN r.id_departamento) then
    (⟨400, .msg "Campos obrigatórios ausentes. Envie nome, crm, especialidade, data_contratacao e id_departamento."⟩, [])
  else if r.id_departamento.getD 0 ≤ 0 then
    (⟨400, .msg "id_departamento inválido."⟩, [])
  else if !(isValidISODate (r.data_contratacao.getD "")) then
    (⟨400, .msg "Data inválida. Use YYYY-MM-DD."⟩, [])
  else if !(db.departamentos.any
      (fun d => ((d.id_departamento : Rat) == r.id_departamento.getD 0))) then
    (⟨400, .msg "id_departamento informado não existe."⟩, [deptExistsSQL])
  else if db.medicos.any (fun m => m.crm == r.crm.getD "") then
    (⟨400, .msg "CRM informado já está cadastrado."⟩, [deptExistsSQL, medicoCrmSQL])
  else
    (⟨201, .row ⟨db.nextMedico, r.nome.getD "", r.crm.getD "",
        r.especialidade.getD "", r.data_contratacao.getD "",
        some (r.id_departamento.getD 0)⟩⟩,
     [deptExistsSQL, medicoCrmSQL, medicoInsertSQL])

/-- `PUT /medico/:id` (src/src/routes/medico.js lines 610-653).
An infinite id passing the guard raises at the existence SELECT and is
answered 500 by the `catch`; the store phase for finite ids is the
exact lookup (fractional finite ids, rejected by the store in reality,
lie outside every hypothesis stated about this handler). -/
def medicoUpdate (db : DB) (idStr : String) (r : MedicoReq) :
    HttpResponse MedicoRow × List String :=
  let idn := jsNumber idStr
  if jsIsNaN idn || jsLeZero idn then
    (⟨400, .msg "Informe um id_medico válido."⟩, [])
  else if !(truthyS r.nome && truthyS r.crm && truthyS r.especialidade &&
            truthyS r.data_contratacao && truthyN r.id_departamento) then
    (⟨400, .msg "Campos obrigatórios ausentes. Envie nome, crm, especialidade, data_contratacao e id_departamento."⟩, [])
  else if !(isValidISODate (r.data_contratacao.getD "")) then
    (⟨400, .msg "Data de contratação inválida."⟩, [])
  else if r.id_departamento.getD 0 ≤ 0 then
    (⟨400, .msg "id_departamento inválido."⟩, [])
  else
    match idn with
    | .fin q =>
      match db.medicos.filter (fun m => ((m.id_medico : Rat) == q)) with
      | [] => (⟨404, .msg "Médico não cadastrado no banco."⟩, [medicoGetSQL])
      | m0 :: _ =>
        if !(db.departamentos.any
            (fun d => ((d.id_departamento : Rat) == r.id_departamento.getD 0))) then
          (⟨400, .msg "id_departamento informado não existe."⟩,
           [medicoGetSQL, deptExistsUpdSQL])
        else if db.medicos.any
            (fun m => m.crm == r.crm.getD "" && !((m.id_medico : Rat) == q)) then
          (⟨400, .msg "CRM já cadastrado para outro médico."⟩,
           [medicoGetSQL, deptExistsUpdSQL, medicoCrmExclSQL])
        else
          (⟨200, .row ⟨m0.id_medico, r.nome.getD "", r.crm.getD "",
              r.especialidade.getD "", r.data_contratacao.getD "",
              some (r.id_departamento.getD 0)⟩⟩,
           [medicoGetSQL, deptExistsUpdSQL, medicoCrmExclSQL, medicoUpdateSQL])
    | _ => (⟨500, .msg "Erro ao atualizar médico no banco."⟩, [medicoGetSQL])

/-- `GET /consulta/:id` (src/src/routes/consulta.js lines 113-130):
only a `NaN` guard (zero and negative ids pass), then the count query
binding the raw numeric value as the `int4` parameter — an
unconvertible value raises at the store and the `catch` answers 500
with `error.message`. -/
def consultaGetById (db : DB) (idStr : String) :
    HttpResponse ConsultaRow × List String :=
  let id := jsNumber idStr
  if jsIsNaN id then (⟨400, .msg "Informe um id_consulta válido"⟩, [])
  else
    match pgBindInt4 id with
    | .error e => (⟨500, .msg e.message⟩, [consultaCountSQL])
    | .ok k =>
      let found := db.consultas.filter (fun c => ((c.id_consulta : Int) == k))
      if found.length == 0 then
        (⟨404, .msg "Consulta não cadastrada no banco"⟩, [consultaCountSQL])
      else
        (⟨200, .rows found⟩, [consultaCountSQL, consultaGetSQL])

/-- `POST /consulta` (src/src/routes/consulta.js lines 193-211): no field
validation, direct insert; every store error is caught and surfaced as
HTTP 500 with `error.message`. -/
def consultaCreate (db : DB) (body : Option ConsultaReq) :
    HttpResponse ConsultaRow × List String :=
  match body with
  | none => (⟨400, .msg "Parâmetros incorretos"⟩, [])
  | some r =>
    match consultaInsert db r with
    | .ok row => (⟨200, .row row⟩, [consultaInsertSQL])
    | .error e => (⟨500, .msg e.message⟩, [consultaInsertSQL])

/-- `GET /departamento` (canonical version, src/unnamed/part_001
lines 49-62). -/
def departamentoList (db : DB) : HttpResponse DepartamentoRow × List String :=
  let rows := sortByKey DepartamentoRow.id_departamento db.departamentos
  if rows.length == 0 then
    (⟨200, .msg "Nenhum departamento cadastrado."⟩, [departamentoListSQL])
  else
    (⟨200, .rows rows⟩, [departamentoListSQL])

/-- Strict integer parse performed by PostgreSQL when a text parameter is
bound to an `int` column: optional sign then digits only. -/
def pgParseInt (s : String) : Option Int :=
  match s.data with
  | [] => none
  | cs =>
    let (sg, ds) := splitSignInt cs
    if !ds.isEmpty && ds.all Char.isDigit then some (sg * (digitsVal ds : Int))
    else none

/-- `GET /transacao/:id` (src/src/routes/rota.js lines 125-145): two
updates and a select inside one transaction; the raw path parameter is
bound as `$1` in all three statements. -/
def rotaTransacao (db : DB) (idStr : String) :
    HttpResponse UsuarioRow × List String :=
  match pgParseInt idStr with
  | none =>
    (⟨500, .msg "invalid input syntax for type integer"⟩, [rotaUpd1SQL])
  | some n =>
    match db.usuarios.filter (fun u => ((u.id : Int) == n)) with
    | [] => (⟨500, .msg "Erro de operação"⟩, [rotaUpd1SQL, rotaUpd2SQL, rotaSelSQL])
    | u :: _ =>
      (⟨200, .row ⟨u.id, u.nome ++ "_teste", u.senha ++ "_teste"⟩⟩,
       [rotaUpd1SQL, rotaUpd2SQL, rotaSelSQL])

/-! ## Concrete store states for counterexamples and witnesses -/

/-- The seed data of sql/init.sql. -/
def exDB : DB :=
  { pacientes :=
      [⟨1, "João da Silva", "123.456.789-00", "1985-04-23", "Rua das Flores, 123"⟩,
       ⟨2, "Maria Oliveira", "987.654.321-00", "1992-11-10", "Av. Paulista, 999"⟩,
       ⟨3, "Carlos Santos", "555.222.111-33", "1978-06-15", "Rua Central, 45"⟩],
    medicos :=
      [⟨1, "Dra. Ana Souza", "CRM12345", "Cardiologista", "2020-01-10", some 1⟩,
       ⟨2, "Dr. Pedro Lima", "CRM67890", "Pediatra", "2018-07-22", some 2⟩,
       ⟨3, "Dr. Lucas Pereira", "CRM54321", "Ortopedista", "2021-03-05", some 3⟩],
    departamentos :=
      [⟨1, "Cardiologia", some "Bloco A - 1º Andar"⟩,
       ⟨2, "Pediatria", some "Bloco B - 2º Andar"⟩,
       ⟨3, "Ortopedia", some "Bloco C - Térreo"⟩],
    consultas :=
      [⟨1, 1, 1, "2025-11-01", some 30, some "Hipertensão controlada", some "Paciente em bom estado."⟩,
       ⟨2, 2, 2, "2025-11-03", some 20, some "Gripe leve", some "Receitado antigripal."⟩,
       ⟨3, 3, 3, "2025-11-05", some 40, some "Dor no joelho", some "Solicitado exame de imagem."⟩],
    usuarios := [],
    nextPaciente := 4, nextMedico := 4, nextConsulta := 4 }

/-- An empty store. -/
def emptyDB : DB := ⟨[], [], [], [], [], 1, 1, 1⟩

/-! ## C3 -/

/-- A create request whose `(patient, doctor, date)` triple equals the
first seeded appointment but whose other fields differ. -/
def dupConsultaReq : ConsultaReq :=
  ⟨some 1, some 1, some "2025-11-01", some 45, some "Outro diagnóstico", none⟩

/-- C3 counterexample: a create request duplicating the
`(patient, doctor, date)` triple of an existing appointment row is
answered with HTTP 500 (the store error is not mapped), not with the
claimed InvalidArgument 400. -/
theorem c3_counterexample_duplicate_gives_500 :
    (consultaCreate exDB (some dupConsultaReq)).1.status = 500 ∧
    (consultaCreate exDB (some dupConsultaReq)).1.status ≠ 400 := by
  with_unfolding_all decide

lemma consultaInsert_duplicate (db : DB) (r : ConsultaReq) (p m : Rat)
    (dt : String) (hp : r.id_paciente = some p) (hm : r.id_medico = some m)
    (hd : r.data_consulta = some dt)
    (hdup : db.consultas.any
      (fun c => c.id_paciente == p && c.id_medico == m && c.data_consulta == dt) = true) :
    consultaInsert db r = .error (.uniqueViolation "uq_consulta_unica") := by
  unfold consultaInsert
  rw [hp, hm, hd]
  simp only [hdup, if_true]

/-- C3 amended: the Appointment create handler performs no duplicate
pre-check and no error-code mapping; a create whose
`(patient, doctor, date)` triple equals that of an existing row is
rejected by the store's unique constraint and surfaces as HTTP 500
carrying the store's `error.message`, regardless of the other fields. -/
theorem c3_amended_duplicate_gives_500 (db : DB) (r : ConsultaReq)
    (p m : Rat) (dt : String) (hp : r.id_paciente = some p)
    (hm : r.id_medico = some m) (hd : r.data_consulta = some dt)
    (hdup : db.consultas.any
      (fun c => c.id_paciente == p && c.id_medico == m && c.data_consulta == dt) = true) :
    (consultaCreate db (some r)).1 =
      ⟨500, .msg (SqlError.message (.uniqueViolation "uq_consulta_unica"))⟩ := by
  unfold consultaCreate
  dsimp only
  rw [consultaInsert_duplicate db r p m dt hp hm hd hdup]

/-- C3 witness: the amended statement applied to the seeded store and a
concrete duplicate-triple request. -/
theorem c3_amended_witness :
    (consultaCreate exDB (some dupConsultaReq)).1 =
      ⟨500, .msg (SqlError.message (.uniqueViolation "uq_consulta_unica"))⟩ :=
  c3_amended_duplicate_gives_500 exDB dupConsultaReq 1 1 "2025-11-01"
    rfl rfl rfl (by with_unfolding_all decide)

/-! ## C4 -/

/-- A patient create request carrying only the fields the spec marks
required (name, checksum-valid CPF). -/
def barePacienteReq : PacienteReq :=
  ⟨some "Ana Lima", some "11144477735", none, none⟩

/-- A doctor create request carrying only the fields the spec marks
required (name, CRM). -/
def bareMedicoReq : MedicoReq :=
  ⟨some "Dr. Novo", some "CRM99999", none, none, none⟩

/-- C4 counterexample: both create handlers reject requests that omit
the spec's optional fields with InvalidArgument 400 instead of the
claimed success. -/
theorem c4_counterexample_optional_fields_rejected :
    (pacienteCreate exDB barePacienteReq).1.status = 400 ∧
    (pacienteCreate exDB barePacienteReq).1.status ≠ 201 ∧
    (medicoCreate exDB bareMedicoReq).1.status = 400 ∧
    (medicoCreate exDB bareMedicoReq).1.status ≠ 201 := by
  decide

/-- C4 amended: the canonical create handlers require every body field:
a Patient create without `data_nascimento` and `endereco`, and a Doctor
create without `especialidade`, `data_contratacao` and
`id_departamento`, are always answered with the missing-fields
InvalidArgument 400, whatever the store contains. -/
theorem c4_amended_all_fields_required (db : DB) (nome cpf crm : Option String) :
    (pacienteCreate db ⟨nome, cpf, none, none⟩).1 =
      ⟨400, .msg "Campos obrigatórios ausentes. Envie nome, cpf, data_nascimento e endereco."⟩ ∧
    (medicoCreate db ⟨nome, crm, none, none, none⟩).1 =
      ⟨400, .msg "Campos obrigatórios ausentes. Envie nome, crm, especialidade, data_contratacao e id_departamento."⟩ := by
  constructor
  · unfold pacienteCreate
    simp [truthyS]
  · unfold medicoCreate
    simp [truthyS, truthyN]

/-! ## C5 -/

/-- C5 counterexample: the Appointment get-by-id handler answers the
identifier `"0"` — which does not parse as a *positive* integer — with
NotFound 404 after a store lookup, not with the claimed
InvalidArgument 400. -/
theorem c5_counterexample_zero_id_reaches_lookup :
    (consultaGetById exDB "0").1.status = 404 ∧
    (consultaGetById exDB "0").1.status ≠ 400 := by
  with_unfolding_all decide

/-- C5 amended: get-by-id contract actually implemented.  Both handlers
answer a `NaN` identifier with InvalidArgument 400 and never 500.  The
patient handler additionally rejects zero, negative and `-Infinity`
identifiers with 400; the appointment handler forwards them to the
store.  An identifier passing a guard is bound to the `int4` id
parameter: a value the store cannot convert — non-integral, infinite,
or an integer beyond the 32-bit range — raises there and the handler
answers 500 (the patient route with its fixed message); a convertible
value reaches the lookup, which answers NotFound 404 when no row
matches and 200 with the row(s) otherwise. -/
theorem c5_amended_get_by_id_contract :
    (∀ (db : DB) (s : String), jsNumber s = .nan →
      (pacienteGetById db s).1 = ⟨400, .msg "Informe um id_paciente válido."⟩ ∧
      (consultaGetById db s).1 = ⟨400, .msg "Informe um id_consulta válido"⟩) ∧
    (∀ (db : DB) (s : String) (q : Rat), jsNumber s = .fin q → q ≤ 0 →
      (pacienteGetById db s).1 = ⟨400, .msg "Informe um id_paciente válido."⟩) ∧
    (∀ (db : DB) (s : String), jsNumber s = .inf true →
      (pacienteGetById db s).1 = ⟨400, .msg "Informe um id_paciente válido."⟩) ∧
    (∀ (db : DB) (s : String), jsNumber s = .inf false →
      (pacienteGetById db s).1 = ⟨500, .msg "Erro interno ao buscar paciente."⟩ ∧
      (consultaGetById db s).1.status = 500) ∧
    (∀ (db : DB) (s : String) (q : Rat), jsNumber s = .fin q → q.den ≠ 1 →
      (0 < q →
        (pacienteGetById db s).1 = ⟨500, .msg "Erro interno ao buscar paciente."⟩) ∧
      (consultaGetById db s).1.status = 500) ∧
    (∀ (db : DB) (s : String) (q : Rat), jsNumber s = .fin q → q.den = 1 →
      (q.num < -2147483648 ∨ 2147483647 < q.num) →
      (0 < q →
        (pacienteGetById db s).1 = ⟨500, .msg "Erro interno ao buscar paciente."⟩) ∧
      (consultaGetById db s).1.status = 500) ∧
    (∀ (db : DB) (s : String) (q : Rat) (k : Int),
      jsNumber s = .fin q → pgBindInt4 (.fin q) = .ok k →
      (0 < q → db.pacientes.filter (fun p => ((p.id_paciente : Int) == k)) = [] →
        (pacienteGetById db s).1 = ⟨404, .msg "Paciente não cadastrado no banco."⟩) ∧
      (∀ (p0 : PacienteRow) (rest : List PacienteRow), 0 < q →
        db.pacientes.filter (fun p => ((p.id_paciente : Int) == k)) = p0 :: rest →
        (pacienteGetById db s).1 = ⟨200, .row p0⟩) ∧
      (db.consultas.filter (fun c => ((c.id_consulta : Int) == k)) = [] →
        (consultaGetById db s).1 = ⟨404, .msg "Consulta não cadastrada no banco"⟩) ∧
      (∀ (c0 : ConsultaRow) (rest : List ConsultaRow),
        db.consultas.filter (fun c => ((c.id_consulta : Int) == k)) = c0 :: rest →
        (consultaGetById db s).1 = ⟨200, .rows (c0 :: rest)⟩)) := by
  refine ⟨?_, ?_, ?_, ?_, ?_, ?_, ?_⟩
  · intro db s h
    unfold pacienteGetById consultaGetById
    rw [h]
    exact ⟨rfl, rfl⟩
  · intro db s q h hq
    unfold pacienteGetById
    rw [h]
    simp [jsIsNaN, jsLeZero, hq]
  · intro db s h
    unfold pacienteGetById
    rw [h]
    rfl
  · intro db s h
    unfold pacienteGetById consultaGetById
    rw [h]
    exact ⟨rfl, rfl⟩
  · intro db s q h hden
    constructor
    · intro hq
      unfold pacienteGetById
      rw [h]
      simp [jsIsNaN, jsLeZero, not_le.mpr hq, pgBindInt4, hden]
    · unfold consultaGetById
      rw [h]
      simp [jsIsNaN, pgBindInt4, hden]
  · intro db s q h hden hrange
    constructor
    · intro hq
      unfold pacienteGetById
      rw [h]
      simp [jsIsNaN, jsLeZero, not_le.mpr hq, pgBindInt4, hden, hrange]
    · unfold consultaGetById
      rw [h]
      simp [jsIsNaN, pgBindInt4, hden, hrange]
  · intro db s q k h hbind
    refine ⟨?_, ?_, ?_, ?_⟩
    · intro hq hf
      unfold pacienteGetById
      rw [h]
      simp only [jsIsNaN, jsLeZero, Bool.false_or, decide_eq_false (not_le.mpr hq),
        Bool.false_eq_true, if_false, hbind, hf]
    · intro p0 rest hq hf
      unfold pacienteGetById
      rw [h]
      simp only [jsIsNaN, jsLeZero, Bool.false_or, decide_eq_false (not_le.mpr hq),
        Bool.false_eq_true, if_false, hbind, hf]
    · intro hf
      unfold consultaGetById
      rw [h]
      simp only [jsIsNaN, Bool.false_eq_true, if_false, hbind, hf]
      rfl
    · intro c0 rest hf
      unfold consultaGetById
      rw [h]
      simp only [jsIsNaN, Bool.false_eq_true, if_false, hbind, hf]
      rfl

/-- C5 witness: the amended contract applied to the seeded store at the
concrete identifiers `"abc"` (NaN → 400 on both handlers), `"0"`
(convertible, forwarded to the appointment lookup → 404) and `"1.5"`
(fractional → store conversion error → 500). -/
theorem c5_amended_witness :
    ((pacienteGetById exDB "abc").1 = ⟨400, .msg "Informe um id_paciente válido."⟩ ∧
     (consultaGetById exDB "abc").1 = ⟨400, .msg "Informe um id_consulta válido"⟩) ∧
    (consultaGetById exDB "0").1 = ⟨404, .msg "Consulta não cadastrada no banco"⟩ ∧
    (pacienteGetById exDB "1.5").1 =
      ⟨500, .msg "Erro interno ao buscar paciente."⟩ :=
  ⟨c5_amended_get_by_id_contract.1 exDB "abc" (by decide),
   (c5_amended_get_by_id_contract.2.2.2.2.2.2 exDB "0" 0 0
      (by with_unfolding_all decide) (by with_unfolding_all rfl)).2.2.1
      (by with_unfolding_all decide),
   ((c5_amended_get_by_id_contract.2.2.2.2.1 exDB "1.5" (3 / 2)
      (by with_unfolding_all decide) (by with_unfolding_all decide)).1
      (by with_unfolding_all decide))⟩

/-! ## C7 -/

/-- An update request for a nonexistent patient id carrying a malformed
CPF. -/
def badCpfUpdateReq : PacienteReq :=
  ⟨some "Ana", some "123", some "2000-01-01", some "Rua X"⟩

/-- An update request for a nonexistent patient id whose fields are all
well-formed. -/
def goodUpdateReq : PacienteReq :=
  ⟨some "Ana", some "11144477735", some "2000-01-01", some "Rua X"⟩

/-- C7 counterexample: an update aimed at the nonexistent patient id 999
with a malformed CPF is answered with InvalidArgument 400, not the
claimed NotFound 404 — field validation runs before the existence
check. -/
theorem c7_counterexample_validation_first :
    (pacienteUpdate exDB "999" badCpfUpdateReq).1.status = 400 ∧
    (pacienteUpdate exDB "999" badCpfUpdateReq).1.status ≠ 404 := by
  with_unfolding_all decide

/-- C7 amended: in both canonical Update handlers field validation
precedes the existence check: with a well-formed positive identifier,
malformed fields give InvalidArgument 400 whatever the store contains
(even when the target row does not exist), and NotFound 404 is reached
only after every field validation passes. -/
theorem c7_amended_validation_precedes_existence :
    (∀ (db : DB) (idStr : String) (q : Rat) (r : PacienteReq),
      jsNumber idStr = .fin q → ¬ q ≤ 0 →
      (truthyS r.nome && truthyS r.cpf && truthyS r.data_nascimento &&
       truthyS r.endereco) = true →
      validaCPF (r.cpf.getD "") = false →
      (pacienteUpdate db idStr r).1 = ⟨400, .msg "CPF inválido."⟩) ∧
    (∀ (db : DB) (idStr : String) (q : Rat) (r : PacienteReq),
      jsNumber idStr = .fin q → ¬ q ≤ 0 →
      (truthyS r.nome && truthyS r.cpf && truthyS r.data_nascimento &&
       truthyS r.endereco) = true →
      validaCPF (r.cpf.getD "") = true →
      isValidISODate (r.data_nascimento.getD "") = true →
      db.pacientes.filter (fun p => ((p.id_paciente : Rat) == q)) = [] →
      (pacienteUpdate db idStr r).1 = ⟨404, .msg "Paciente não cadastrado no banco."⟩) ∧
    (∀ (db : DB) (idStr : String) (q : Rat) (r : MedicoReq),
      jsNumber idStr = .fin q → ¬ q ≤ 0 →
      (truthyS r.nome && truthyS r.crm && truthyS r.especialidade &&
       truthyS r.data_contratacao && truthyN r.id_departamento) = true →
      isValidISODate (r.data_contratacao.getD "") = false →
      (medicoUpdate db idStr r).1 = ⟨400, .msg "Data de contratação inválida."⟩) ∧
    (∀ (db : DB) (idStr : String) (q : Rat) (r : MedicoReq),
      jsNumber idStr = .fin q → ¬ q ≤ 0 →
      (truthyS r.nome && truthyS r.crm && truthyS r.especialidade &&
       truthyS r.data_contratacao && truthyN r.id_departamento) = true →
      isValidISODate (r.data_contratacao.getD "") = true →
      ¬ r.id_departamento.getD 0 ≤ 0 →
      db.medicos.filter (fun m => ((m.id_medico : Rat) == q)) = [] →
      (medicoUpdate db idStr r).1 = ⟨404, .msg "Médico não cadastrado no banco."⟩) := by
  refine ⟨?_, ?_, ?_, ?_⟩
  · intro db idStr q r hid hq htr hcpf
    unfold pacienteUpdate
    rw [hid]
    simp [jsIsNaN, jsLeZero, hq, htr, hcpf]
  · intro db idStr q r hid hq htr hcpf hdate hf
    unfold pacienteUpdate
    rw [hid]
    simp only [jsIsNaN, jsLeZero, Bool.false_or, decide_eq_false hq,
      Bool.false_eq_true, if_false, htr, Bool.not_true, hcpf, hdate,
      Bool.not_false, hf]
  · intro db idStr q r hid hq htr hdate
    unfold medicoUpdate
    rw [hid]
    simp [jsIsNaN, jsLeZero, hq, htr, hdate]
  · intro db idStr q r hid hq htr hdate hdq hf
    unfold medicoUpdate
    rw [hid]
    simp only [jsIsNaN, jsLeZero, Bool.false_or, decide_eq_false hq,
      Bool.false_eq_true, if_false, htr, Bool.not_true, hdate,
      Bool.not_false, Bool.true_eq_false, if_true, if_neg hdq, hf]

set_option maxRecDepth 4000 in
/-- C7 witness: the amended statement applied at patient id `"999"`
(absent from the seeded store) with a malformed and then a well-formed
request body. -/
theorem c7_amended_witness :
    (pacienteUpdate exDB "999" badCpfUpdateReq).1 = ⟨400, .msg "CPF inválido."⟩ ∧
    (pacienteUpdate exDB "999" goodUpdateReq).1 =
      ⟨404, .msg "Paciente não cadastrado no banco."⟩ :=
  ⟨c7_amended_validation_precedes_existence.1 exDB "999" 999 badCpfUpdateReq
     (by with_unfolding_all decide) (by with_unfolding_all decide)
     (by decide) (by decide),
   c7_amended_validation_precedes_existence.2.1 exDB "999" 999 goodUpdateReq
     (by with_unfolding_all decide) (by with_unfolding_all decide)
     (by decide) (by decide) (by decide) (by with_unfolding_all decide)⟩

/-! ## C8 -/

/-- C8 counterexample: on an empty table both canonical List handlers
answer 200 with a notice *string*, not with the claimed empty array. -/
theorem c8_counterexample_empty_list_is_notice :
    (pacienteList emptyDB).1.status = 200 ∧
    (pacienteList emptyDB).1.body ≠ Payload.rows [] ∧
    (departamentoList emptyDB).1.status = 200 ∧
    (departamentoList emptyDB).1.body ≠ Payload.rows [] := by
  decide

/-- C8 amended: every List request succeeds with HTTP 200 (barring store
failure); a nonempty table yields the array of rows in the envelope,
while an empty table yields a notice string
(`"Nenhum ... cadastrado."`) instead of an empty array. -/
theorem c8_amended_list_contract :
    (∀ db : DB, (pacienteList db).1.status = 200 ∧
      (departamentoList db).1.status = 200) ∧
    (∀ db : DB, db.pacientes = [] →
      (pacienteList db).1 = ⟨200, .msg "Nenhum paciente cadastrado."⟩) ∧
    (∀ (db : DB) (p0 : PacienteRow) (rest : List PacienteRow),
      sortByKey PacienteRow.id_paciente db.pacientes = p0 :: rest →
      (pacienteList db).1 = ⟨200, .rows (p0 :: rest)⟩) ∧
    (∀ db : DB, db.departamentos = [] →
      (departamentoList db).1 = ⟨200, .msg "Nenhum departamento cadastrado."⟩) ∧
    (∀ (db : DB) (d0 : DepartamentoRow) (rest : List DepartamentoRow),
      sortByKey DepartamentoRow.id_departamento db.departamentos = d0 :: rest →
      (departamentoList db).1 = ⟨200, .rows (d0 :: rest)⟩) := by
  refine ⟨?_, ?_, ?_, ?_, ?_⟩
  · intro db
    constructor
    · unfold pacienteList
      dsimp only
      split <;> rfl
    · unfold departamentoList
      dsimp only
      split <;> rfl
  · intro db hp
    unfold pacienteList
    rw [hp]
    rfl
  · intro db p0 rest h
    unfold pacienteList
    rw [h]
    rfl
  · intro db hd
    unfold departamentoList
    rw [hd]
    rfl
  · intro db d0 rest h
    unfold departamentoList
    rw [h]
    rfl

/-- C8 witness: the amended statement applied to the empty store and to
the seeded store. -/
theorem c8_amended_witness :
    (pacienteList emptyDB).1 = ⟨200, .msg "Nenhum paciente cadastrado."⟩ ∧
    (departamentoList exDB).1 =
      ⟨200, .rows (sortByKey DepartamentoRow.id_departamento exDB.departamentos)⟩ :=
  ⟨c8_amended_list_contract.2.1 emptyDB rfl,
   c8_amended_list_contract.2.2.2.2 exDB
     ⟨1, "Cardiologia", some "Bloco A - 1º Andar"⟩
     [⟨2, "Pediatria", some "Bloco B - 2º Andar"⟩,
      ⟨3, "Ortopedia", some "Bloco C - Térreo"⟩] (by decide) |>.trans (by decide)⟩

/-! ## C10 -/

/-- C10 counterexample: at the claim's own example `"1.5"` neither cited
handler resolves the request by lookup — the store rejects binding the
fractional value to the `int4` id and the handlers answer 500, neither
NotFound nor a row. -/
theorem c10_counterexample_fractional_id_500 :
    (pacienteGetById exDB "1.5").1.status = 500 ∧
    (pacienteGetById exDB "1.5").1.status ≠ 404 ∧
    (pacienteGetById exDB "1.5").1.status ≠ 200 ∧
    (consultaGetById exDB "1.5").1.status = 500 := by
  with_unfolding_all decide

/-- C10 amended: a positive identifier whose `Number` value is
non-integral or written in exponent notation passes the id guard of
both cited get-by-id handlers (the response is never
InvalidArgument 400), but it is then bound to the `int4` id parameter:
a non-integral value is rejected by the store and answered 500, while a
value that converts to an in-range integer — e.g. `"1e2"`, value 100 —
does reach the lookup and yields NotFound 404 when no row matches and
200 with the row(s) otherwise. -/
theorem c10_amended_guard_accepts_store_decides :
    (∀ (db : DB) (s : String) (q : Rat), jsNumber s = .fin q → 0 < q →
      (pacienteGetById db s).1.status ≠ 400 ∧
      (consultaGetById db s).1.status ≠ 400) ∧
    (∀ (db : DB) (s : String) (q : Rat), jsNumber s = .fin q → 0 < q →
      q.den ≠ 1 →
      (pacienteGetById db s).1.status = 500 ∧
      (consultaGetById db s).1.status = 500) ∧
    (∀ (db : DB) (s : String) (q : Rat) (k : Int),
      jsNumber s = .fin q → 0 < q → pgBindInt4 (.fin q) = .ok k →
      (db.pacientes.filter (fun p => ((p.id_paciente : Int) == k)) = [] →
        (pacienteGetById db s).1 = ⟨404, .msg "Paciente não cadastrado no banco."⟩) ∧
      (∀ (p0 : PacienteRow) (rest : List PacienteRow),
        db.pacientes.filter (fun p => ((p.id_paciente : Int) == k)) = p0 :: rest →
        (pacienteGetById db s).1 = ⟨200, .row p0⟩) ∧
      (db.consultas.filter (fun c => ((c.id_consulta : Int) == k)) = [] →
        (consultaGetById db s).1.status = 404)) := by
  refine ⟨?_, ?_, ?_⟩
  · intro db s q h hq
    constructor
    · unfold pacienteGetById
      rw [h]
      simp only [jsIsNaN, jsLeZero, Bool.false_or, decide_eq_false (not_le.mpr hq),
        Bool.false_eq_true, if_false]
      cases pgBindInt4 (.fin q) with
      | error e => simp
      | ok k => dsimp only; split <;> simp
    · unfold consultaGetById
      rw [h]
      simp only [jsIsNaN, Bool.false_eq_true, if_false]
      cases pgBindInt4 (.fin q) with
      | error e => simp
      | ok k => dsimp only; split <;> simp
  · intro db s q h hq hden
    constructor
    · unfold pacienteGetById
      rw [h]
      simp [jsIsNaN, jsLeZero, not_le.mpr hq, pgBindInt4, hden]
    · unfold consultaGetById
      rw [h]
      simp [jsIsNaN, pgBindInt4, hden]
  · intro db s q k h hq hbind
    refine ⟨?_, ?_, ?_⟩
    · intro hf
      unfold pacienteGetById
      rw [h]
      simp only [jsIsNaN, jsLeZero, Bool.false_or, decide_eq_false (not_le.mpr hq),
        Bool.false_eq_true, if_false, hbind, hf]
    · intro p0 rest hf
      unfold pacienteGetById
      rw [h]
      simp only [jsIsNaN, jsLeZero, Bool.false_or, decide_eq_false (not_le.mpr hq),
        Bool.false_eq_true, if_false, hbind, hf]
    · intro hf
      unfold consultaGetById
      rw [h]
      simp only [jsIsNaN, Bool.false_eq_true, if_false, hbind, hf]
      rfl

/-- C10 witness: the amended statement applied on the seeded store to
`"1.5"` (guard passed, store bind rejected → 500, not 400) and to
`"1e2"` (converts to 100, no matching row → 404). -/
theorem c10_amended_witness :
    (pacienteGetById exDB "1.5").1.status = 500 ∧
    (pacienteGetById exDB "1.5").1.status ≠ 400 ∧
    (consultaGetById exDB "1e2").1.status = 404 :=
  ⟨((c10_amended_guard_accepts_store_decides.2.1 exDB "1.5" (3 / 2)
      (by with_unfolding_all decide) (by with_unfolding_all decide)
      (by with_unfolding_all decide)).1),
   ((c10_amended_guard_accepts_store_decides.1 exDB "1.5" (3 / 2)
      (by with_unfolding_all decide) (by with_unfolding_all decide)).1),
   ((c10_amended_guard_accepts_store_decides.2.2 exDB "1e2" 100 100
      (by with_unfolding_all decide) (by with_unfolding_all decide)
      (by with_unfolding_all rfl)).2.2
      (by with_unfolding_all decide))⟩

/-! ## C6 -/

/-- C6: in the Doctor update handler the CRM uniqueness pre-check
excludes the row being updated: with an otherwise valid request aimed at
an existing doctor, a CRM already used by a *different* doctor is
rejected with InvalidArgument 400, while the doctor's own current CRM is
accepted and the updated row is returned. -/
theorem c6_crm_uniqueness_excludes_self :
    (∀ (db : DB) (idStr : String) (q : Rat) (r : MedicoReq)
       (m0 : MedicoRow) (rest : List MedicoRow),
      jsNumber idStr = .fin q → ¬ q ≤ 0 →
      (truthyS r.nome && truthyS r.crm && truthyS r.especialidade &&
       truthyS r.data_contratacao && truthyN r.id_departamento) = true →
      isValidISODate (r.data_contratacao.getD "") = true →
      ¬ r.id_departamento.getD 0 ≤ 0 →
      db.medicos.filter (fun m => ((m.id_medico : Rat) == q)) = m0 :: rest →
      db.departamentos.any
        (fun d => ((d.id_departamento : Rat) == r.id_departamento.getD 0)) = true →
      db.medicos.any
        (fun m => m.crm == r.crm.getD "" && !((m.id_medico : Rat) == q)) = true →
      (medicoUpdate db idStr r).1 =
        ⟨400, .msg "CRM já cadastrado para outro médico."⟩) ∧
    (∀ (db : DB) (idStr : String) (q : Rat) (r : MedicoReq)
       (m0 : MedicoRow) (rest : List MedicoRow),
      jsNumber idStr = .fin q → ¬ q ≤ 0 →
      (truthyS r.nome && truthyS r.crm && truthyS r.especialidade &&
       truthyS r.data_contratacao && truthyN r.id_departamento) = true →
      isValidISODate (r.data_contratacao.getD "") = true →
      ¬ r.id_departamento.getD 0 ≤ 0 →
      db.medicos.filter (fun m => ((m.id_medico : Rat) == q)) = m0 :: rest →
      db.departamentos.any
        (fun d => ((d.id_departamento : Rat) == r.id_departamento.getD 0)) = true →
      r.crm = some m0.crm →
      (∀ m ∈ db.medicos, m.crm = m0.crm → m.id_medico = m0.id_medico) →
      (medicoUpdate db idStr r).1 =
        ⟨200, .row ⟨m0.id_medico, r.nome.getD "", r.crm.getD "",
            r.especialidade.getD "", r.data_contratacao.getD "",
            some (r.id_departamento.getD 0)⟩⟩) := by
  constructor
  · intro db idStr q r m0 rest hid hq htr hdate hdq hfilter hdept hcrm
    unfold medicoUpdate
    rw [hid]
    simp only [jsIsNaN, jsLeZero, Bool.false_or, decide_eq_false hq,
      Bool.false_eq_true, if_false, htr, Bool.not_true, hdate,
      Bool.not_false, if_true, if_neg hdq, hfilter]
    simp only [hdept, Bool.not_true, Bool.false_eq_true, if_false, hcrm, if_true]
  · intro db idStr q r m0 rest hid hq htr hdate hdq hfilter hdept hcrm huniq
    have hm0 : m0 ∈ db.medicos.filter (fun m => ((m.id_medico : Rat) == q)) := by
      rw [hfilter]; exact List.mem_cons_self m0 rest
    obtain ⟨hm0mem, hm0pred⟩ := List.mem_filter.mp hm0
    have hm0q : (m0.id_medico : Rat) = q := by
      exact_mod_cast beq_iff_eq.mp hm0pred
    have hgetD : r.crm.getD "" = m0.crm := by rw [hcrm]; rfl
    have hnone : db.medicos.any
        (fun m => m.crm == r.crm.getD "" && !((m.id_medico : Rat) == q)) = false := by
      rw [Bool.eq_false_iff]
      intro hany
      rw [List.any_eq_true] at hany
      obtain ⟨m, hin, hm⟩ := hany
      rw [Bool.and_eq_true] at hm
      have h1 : m.crm = m0.crm := by
        have := beq_iff_eq.mp hm.1
        rwa [hgetD] at this
      have h2 : ((m.id_medico : Rat) == q) = false := by
        cases hb : ((m.id_medico : Rat) == q) with
        | false => rfl
        | true => rw [hb] at hm; exact absurd hm.2 (by decide)
      have h3 : m.id_medico = m0.id_medico := huniq m hin h1
      rw [h3, hm0q] at h2
      simp at h2
    unfold medicoUpdate
    rw [hid]
    simp only [jsIsNaN, jsLeZero, Bool.false_or, decide_eq_false hq,
      Bool.false_eq_true, if_false, htr, Bool.not_true, hdate,
      Bool.not_false, if_true, if_neg hdq, hfilter]
    simp only [hdept, Bool.not_true, Bool.false_eq_true, if_false, hnone, if_true]

/-- A doctor-1 update request whose CRM equals doctor 2's. -/
def otherCrmReq : MedicoReq :=
  ⟨some "Dra. Ana Souza", some "CRM67890", some "Cardiologista",
   some "2020-01-10", some 1⟩

/-- A doctor-1 update request whose CRM equals doctor 1's own. -/
def ownCrmReq : MedicoReq :=
  ⟨some "Dra. Ana Souza", some "CRM12345", some "Cardiologista",
   some "2020-01-10", some 1⟩

set_option maxRecDepth 4000 in
/-- C6 witness: on the seeded store, updating doctor 1 to doctor 2's CRM
is rejected with 400, while updating doctor 1 to its own CRM succeeds
with the updated row. -/
theorem c6_witness :
    (medicoUpdate exDB "1" otherCrmReq).1 =
      ⟨400, .msg "CRM já cadastrado para outro médico."⟩ ∧
    (medicoUpdate exDB "1" ownCrmReq).1 =
      ⟨200, .row ⟨1, "Dra. Ana Souza", "CRM12345", "Cardiologista",
          "2020-01-10", some 1⟩⟩ :=
  ⟨c6_crm_uniqueness_excludes_self.1 exDB "1" 1 otherCrmReq
     ⟨1, "Dra. Ana Souza", "CRM12345", "Cardiologista", "2020-01-10", some 1⟩ []
     (by with_unfolding_all decide) (by with_unfolding_all decide)
     (by decide) (by decide) (by with_unfolding_all decide)
     (by with_unfolding_all decide) (by with_unfolding_all decide)
     (by with_unfolding_all decide),
   c6_crm_uniqueness_excludes_self.2 exDB "1" 1 ownCrmReq
     ⟨1, "Dra. Ana Souza", "CRM12345", "Cardiologista", "2020-01-10", some 1⟩ []
     (by with_unfolding_all decide) (by with_unfolding_all decide)
     (by decide) (by decide) (by with_unfolding_all decide)
     (by with_unfolding_all decide) (by with_unfolding_all decide)
     rfl (by decide)⟩

/-! ## C9 -/

/-- C9: every SQL statement a modelled handler sends to the store, on
every control path and for every request and store state, is one of the
fixed constant texts of `sqlConstants`; caller-supplied values reach the
store only as bound parameters, never inside the statement text. -/
theorem c9_sql_text_constant :
    ∀ (db : DB) (idStr : String) (pr : PacienteReq) (mr : MedicoReq)
      (cr : Option ConsultaReq),
      (pacienteList db).2.all sqlConstants.contains = true ∧
      (pacienteGetById db idStr).2.all sqlConstants.contains = true ∧
      (pacienteCreate db pr).2.all sqlConstants.contains = true ∧
      (pacienteUpdate db idStr pr).2.all sqlConstants.contains = true ∧
      (medicoCreate db mr).2.all sqlConstants.contains = true ∧
      (medicoUpdate db idStr mr).2.all sqlConstants.contains = true ∧
      (consultaGetById db idStr).2.all sqlConstants.contains = true ∧
      (consultaCreate db cr).2.all sqlConstants.contains = true ∧
      (departamentoList db).2.all sqlConstants.contains = true ∧
      (rotaTransacao db idStr).2.all sqlConstants.contains = true := by
  intro db idStr pr mr cr
  refine ⟨?_, ?_, ?_, ?_, ?_, ?_, ?_, ?_, ?_, ?_⟩ <;>
    simp only [pacienteList, pacienteGetById, pacienteCreate, pacienteUpdate,
      medicoCreate, medicoUpdate, consultaGetById, consultaCreate,
      departamentoList, rotaTransacao] <;>
    (try cases jsNumber idStr) <;>
    (try cases cr) <;>
    (try dsimp only) <;>
    (repeat' split) <;>
    (first | decide | (dsimp only; decide))

end Hospital
